import Mathlib

/-!
Verification of the schema-to-model translation core of
`extract_pgsql_models_ext.py` (web2py model generator for PostgreSQL).

The development shallowly embeds the core of the script:
the rule-based filter engine (`is_filter_match`, `get_generateInfo`),
the foreign-key resolver (`references`), the type/default mapper
(`define_field`) and the table emitter (`define_table`).  Database
access is abstracted away: each embedded function receives the rows
the corresponding SQL query would return, exactly as the Python code
receives them from its `query` helper (lists of dictionaries).
Python dictionaries with string keys are modelled as association
lists, Python values occurring in those dictionaries as `PyVal`,
and raised exceptions as `Except String`.
-/

namespace ExtractPgsqlModels

/-- A Python value as it occurs in the row/field dictionaries of the
script: a string, an integer, or `None`. -/
inductive PyVal where
  | str (s : String)
  | int (n : Int)
  | none
  deriving DecidableEq, Repr, Inhabited

/-- Python truthiness of a `PyVal`: non-empty strings and non-zero
integers are truthy, `None` is falsy. -/
def PyVal.truthy : PyVal → Bool
  | .str s => s ≠ ""
  | .int n => n ≠ 0
  | .none => false

/-- Python `str()` of a `PyVal` (as used by `"%s" % v` formatting). -/
def PyVal.pyStr : PyVal → String
  | .str s => s
  | .int n => toString n
  | .none => "None"

/-- A Python dictionary with string keys, as an association list.
The script only ever reads keys it has written, so the list order is
not observable through the embedded operations. -/
abbrev Dict := List (String × PyVal)

/-- Python `d[k]` as an optional lookup (first binding of the key). -/
def dictGet (d : Dict) (k : String) : Option PyVal :=
  (d.find? (fun p => p.1 = k)).map (fun p => p.2)

/-- Python `d[k] = v`: replace the first binding of `k` in place if
present, otherwise append the new binding (the script never observes
dictionary iteration order, only key lookup). -/
def dictSet (d : Dict) (k : String) (v : PyVal) : Dict :=
  match d with
  | [] => [(k, v)]
  | p :: rest => if p.1 = k then (k, v) :: rest else p :: dictSet rest k v

/-- Python `d.update(e)`: set every binding of `e` in `d`. -/
def dictUpdate (d e : Dict) : Dict :=
  e.foldl (fun acc p => dictSet acc p.1 p.2) d

/-- Python truthiness of a dictionary: non-empty dictionaries are
truthy. -/
def dictTruthy (d : Dict) : Bool := !d.isEmpty

/-- Python `repr` of a string consisting of ordinary characters
(the script reprs delete rules and column comments, which contain
neither quotes nor backslashes): surround with single quotes. -/
def pyReprStr (s : String) : String := "'" ++ s ++ "'"

/-- Python list indexing `l[i]` with negative-index support:
`l[-k]` is `l[len l - k]`; any index outside `[-len l, len l)`
is an `IndexError` (`none`). -/
def pyGet {α : Type} (l : List α) (i : Int) : Option α :=
  let j : Int := if i < 0 then (l.length : Int) + i else i
  if j < 0 then Option.none else l.get? j.toNat

/-! ### The regular-expression matcher behind `re.match`

The filter patterns of the script use only literal characters and the
wildcard `.*`; we embed the corresponding regex fragment: a pattern is
a sequence of atoms (a literal character or `.`), each optionally
starred.  `re.match(p, s)` in Python is anchored at the START of `s`
only: it succeeds precisely when some prefix of `s` is accepted by
`p`.  The matcher below implements that prefix search directly. -/

/-- A regex atom: a literal character or the wildcard `.`
(which, as in Python `re`, matches any character except newline). -/
inductive Atom where
  | lit (c : Char)
  | dot
  deriving DecidableEq, Repr

/-- One piece of a pattern: an atom taken exactly once, or an atom
under a Kleene star. -/
inductive Piece where
  | once (a : Atom)
  | star (a : Atom)
  deriving DecidableEq, Repr

/-- Does the atom match one character? `.` matches anything but a
newline, as in Python `re` without `DOTALL`. -/
def atomMatch : Atom → Char → Bool
  | .lit c, d => c == d
  | .dot, d => d != '\n'

/-- Interpret a character of a pattern as an atom. -/
def toAtom (c : Char) : Atom :=
  if c = '.' then Atom.dot else Atom.lit c

/-- Parse a pattern string (of the fragment used by the script:
literal characters, `.`, and postfix `*`) into pieces. -/
def parsePattern : List Char → List Piece
  | [] => []
  | c :: '*' :: rest => Piece.star (toAtom c) :: parsePattern rest
  | c :: rest => Piece.once (toAtom c) :: parsePattern rest

/-- Backtracking loop for a starred atom: try to finish the rest of
the pattern (`next`) at every suffix reachable by consuming characters
accepted by the atom (`am`). -/
def starLoop (next : List Char → Bool) (am : Char → Bool) : List Char → Bool
  | [] => next []
  | c :: cs => next (c :: cs) || (am c && starLoop next am cs)

/-- Does some prefix of the character list match the whole piece
list?  This is the semantics of Python's start-anchored `re.match`. -/
def matchHere : List Piece → List Char → Bool
  | [], _ => true
  | .once _ :: _, [] => false
  | .once a :: ps, c :: cs => atomMatch a c && matchHere ps cs
  | .star a :: ps, cs => starLoop (matchHere ps) (atomMatch a) cs

/-- Embedding of Python `re.match(pattern, s)` as a Boolean (the
script only uses the result for its truthiness): true iff the whole
pattern matches some prefix of `s`. -/
def re_match (pattern s : String) : Bool :=
  matchHere (parsePattern pattern.toList) s.toList

/-! ### Filter Engine -/

/-- Source `is_filter_match(patterns, values)`: every pattern element
must `re.match` the corresponding value element (the loop runs over
the indices of `values`; all callers pass lists of equal length). -/
def is_filter_match (patterns values : List String) : Bool :=
  (List.range values.length).all
    (fun i => re_match (patterns.getD i "") (values.getD i ""))

/-- The directive attached to a filter rule: a `TableGenerateInfo`
(optional naming prefix) or a `FieldGenerateInfo` (default field
definitions dictionary). -/
inductive GenerateInfo where
  | tableInfo (pfx : Option String)
  | fieldInfo (definitions : Dict)
  deriving DecidableEq

/-- A filter rule: a pattern tuple and a directive
(`Option.none` renders the Python directive `None`, i.e. exclusion). -/
abbrev Rule := List String × Option GenerateInfo

/-- Source `get_generateInfo(*dbObjectInfo)`: scan the rule list in
order; a rule participates only if its pattern arity equals the
subject arity; the first matching rule's directive is returned, and
`none` if no rule matches. -/
def get_generateInfo : List Rule → List String → Option GenerateInfo
  | [], _ => Option.none
  | (pats, d) :: rest, info =>
    if pats.length = info.length then
      if is_filter_match pats info then d else get_generateInfo rest info
    else
      get_generateInfo rest info

/-- The hard-coded `FILTERS` list of the script. -/
def FILTERS : List Rule :=
  [ (["public", "film", "special_features"], Option.none),
    (["public", "film", "fulltext"], Option.none),
    (["public", "film"], Option.none),
    (["public", ".*"], some (GenerateInfo.tableInfo (some ""))),
    ([".*", ".*", ".*"], some (GenerateInfo.fieldInfo [])) ]

/-! ### Constraint Resolver: `references`

`references(conn, field)` issues two catalog queries.  The embedding
receives the result of the first query (`rows1`, the referencing-side
rows for the field) and the second query as a function from the
constraint name and schema to the referenced-side rows (`rows2q`),
mirroring how the Python code consumes `query(...)` results.  A raised
`RuntimeError`/`IndexError` is an `Except.error`. -/

/-- A row of the referencing-side query of `references` (columns
actually read by the code). -/
structure RefRow1 where
  table_name : String
  column_name : String
  constraint_name : String
  constraint_schema : String
  update_rule : String
  delete_rule : String
  ordinal_position : Int
  deriving DecidableEq, Repr

/-- A row of the referenced-side query of `references` (columns
actually read by the code). -/
structure RefRow2 where
  table_schema : String
  table_name : String
  column_name : String
  deriving DecidableEq, Repr

/-- Rendering of a referencing-side row, standing in for Python's
`str(dict)` in the error messages (the exact dict formatting is
interpreter detail; the message names every field of every row). -/
def reprRefRow1 (r : RefRow1) : String :=
  "\x7b'table_name': '" ++ r.table_name ++
  "', 'column_name': '" ++ r.column_name ++
  "', 'constraint_name': '" ++ r.constraint_name ++
  "', 'constraint_schema': '" ++ r.constraint_schema ++
  "', 'update_rule': '" ++ r.update_rule ++
  "', 'delete_rule': '" ++ r.delete_rule ++
  "', 'ordinal_position': " ++ toString r.ordinal_position ++ "\x7d"

/-- Rendering of a referenced-side row (see `reprRefRow1`). -/
def reprRefRow2 (r : RefRow2) : String :=
  "\x7b'table_schema': '" ++ r.table_schema ++
  "', 'table_name': '" ++ r.table_name ++
  "', 'column_name': '" ++ r.column_name ++ "'\x7d"

/-- Python `str` of a list of rows. -/
def strRows1 (rows : List RefRow1) : String :=
  "[" ++ String.intercalate ", " (rows.map reprRefRow1) ++ "]"

/-- Python `str` of a list of referenced-side rows. -/
def strRows2 (rows : List RefRow2) : String :=
  "[" ++ String.intercalate ", " (rows.map reprRefRow2) ++ "]"

/-- Source `references(conn, field)`, "Find a FK (fails if multiple)".
`rows1` is the referencing-side query result for the field, `rows2q`
yields the referenced-side rows of a constraint.  Returns the
reference dictionary (`type`, and `ondelete` when the delete rule is
not `NO ACTION`), `none` when the column has no reference, and an
error for the raised exceptions.  Each row dictionary produced by the
queries carries the selected columns and hence is never empty, so the
Python truthiness test `if row:` is `row is not None` here; `row` is
`None` exactly when `rows2` is empty, in which case the
`elif rows2:` guard is also falsy and the function returns `None`. -/
def references (rows1 : List RefRow1)
    (rows2q : String → String → List RefRow2) :
    Except String (Option Dict) :=
  if h1 : rows1.length = 1 then
    let r1 := rows1.head (by intro h; rw [h] at h1; simp at h1)
    let rows2 := rows2q r1.constraint_name r1.constraint_schema
    let rowKeyed : Except String (Option (RefRow2 × Bool)) :=
      if rows2.length > 1 then
        match pyGet rows2 (r1.ordinal_position - 1) with
        | some row => Except.ok (some (row, true))
        | Option.none => Except.error "IndexError: list index out of range"
      else if rows2.length = 1 then
        match rows2 with
        | row :: _ => Except.ok (some (row, false))
        | [] => Except.ok Option.none
      else
        Except.ok Option.none
    match rowKeyed with
    | Except.error e => Except.error e
    | Except.ok (some (row, keyed)) =>
      let ref : Dict :=
        if keyed then
          [("type", PyVal.str ("'reference " ++ row.table_schema ++ "." ++
            row.table_name ++ "." ++ row.column_name ++ "'"))]
        else
          [("type", PyVal.str ("'reference " ++ row.table_schema ++ "." ++
            row.table_name ++ "'"))]
      let ref : Dict :=
        if r1.delete_rule ≠ "NO ACTION" then
          ref ++ [("ondelete", PyVal.str (pyReprStr r1.delete_rule))]
        else ref
      Except.ok (some ref)
    | Except.ok Option.none =>
      if rows2.isEmpty then
        Except.ok Option.none
      else
        Except.error ("Unsupported foreign key reference: " ++ strRows2 rows2)
  else if rows1.isEmpty then
    Except.ok Option.none
  else
    Except.error ("Unsupported referential constraint: " ++ strRows1 rows1)

/-! ### Type & Default Mapper: `define_field` -/

/-- Outcome of Python `repr(eval(text))` on a default-expression text.
`eval` is the host language's generic expression evaluator, external
to this core; the mapper only distinguishes: a value (whose `repr`
string is carried), a `ValueError`/`SyntaxError` (not a simple
literal), or any other exception. -/
inductive EvalResult where
  | ok (v : String)
  | literalError
  | otherError
  deriving DecidableEq

/-- A row of the `information_schema.columns` query for one column,
restricted to the keys the code reads.  `is_nullable` is the raw
catalog string (the `yes_or_no` domain: `"YES"` or `"NO"`); the
numeric attributes are integers or SQL `NULL`; `column_default` is
the default-expression text or SQL `NULL`. -/
structure ColumnRow where
  table_schema : String
  table_name : String
  column_name : String
  data_type : String
  is_nullable : String
  character_maximum_length : Option Int
  numeric_precision : Option Int
  numeric_scale : Option Int
  column_default : Option String
  deriving DecidableEq, Repr

/-- Python truthiness of an optional string (`None` and `""` falsy). -/
def optStrTruthy : Option String → Bool
  | some s => s ≠ ""
  | Option.none => false

/-- Python truthiness of an optional integer (`None` and `0` falsy). -/
def optIntTruthy : Option Int → Bool
  | some n => n ≠ 0
  | Option.none => false

/-- Python `s.startswith(p)`: is `p` a prefix of `s`?  (Defined over
the character lists so that concrete runs evaluate by `decide`.) -/
def strStartsWith (s p : String) : Bool :=
  List.isPrefixOf p.toList s.toList

/-- An optional catalog integer as a `PyVal`. -/
def optIntVal : Option Int → PyVal
  | some n => PyVal.int n
  | Option.none => PyVal.none

/-- The script's `FieldInfo` object: generation-info `definitions`
plus the schema/table/name coordinates and the catalog row. -/
structure FieldInfo where
  definitions : Dict
  schema : String
  table : String
  name : String
  row : ColumnRow
  deriving DecidableEq

/-- The catalog answers consumed while resolving one field: the two
`references` query results, the `is_unique` rows and the
`get_comment` rows. -/
structure FieldEnv where
  rows1 : List RefRow1
  rows2q : String → String → List RefRow2
  uniqueRows : List String
  commentRows : List String

/-- Source `is_unique(conn, field)` applied to its query result:
`rows and True or False`. -/
def is_unique (rows : List String) : Bool := !rows.isEmpty

/-- Source `get_comment(conn, field)` applied to its query result:
`rows and rows[0]['comment'] or None` (an empty comment string is
falsy and collapses to `None`). -/
def get_comment (rows : List String) : Option String :=
  match rows with
  | [] => Option.none
  | c :: _ => if c = "" then Option.none else some c

/-- Lines 202-236 of the source: merge the reference dictionary, or
apply the primary-key identity override, or dispatch on the catalog
data type; unrecognized types raise `RuntimeError`. -/
def typeDispatch (f : Dict) (ref : Option Dict) (field : FieldInfo)
    (pks : List String) : Except String Dict :=
  if (match ref with | some d => dictTruthy d | Option.none => false) then
    Except.ok (dictUpdate f (ref.getD []))
  else if optStrTruthy field.row.column_default &&
      strStartsWith (field.row.column_default.getD "") "nextval" &&
      field.row.column_name ∈ pks then
    Except.ok (dictSet f "type" (PyVal.str "'id'"))
  else if strStartsWith field.row.data_type "character" then
    let f := dictSet f "type" (PyVal.str "'string'")
    Except.ok (if optIntTruthy field.row.character_maximum_length then
      dictSet f "length" (optIntVal field.row.character_maximum_length)
    else f)
  else if field.row.data_type ∈ ["text"] then
    Except.ok (dictSet f "type" (PyVal.str "'text'"))
  else if field.row.data_type ∈ ["boolean", "bit"] then
    Except.ok (dictSet f "type" (PyVal.str "'boolean'"))
  else if field.row.data_type ∈ ["integer", "smallint", "bigint"] then
    Except.ok (dictSet f "type" (PyVal.str "'integer'"))
  else if field.row.data_type ∈ ["double precision", "real"] then
    Except.ok (dictSet f "type" (PyVal.str "'double'"))
  else if field.row.data_type ∈ ["timestamp", "timestamp without time zone"] then
    Except.ok (dictSet f "type" (PyVal.str "'datetime'"))
  else if field.row.data_type ∈ ["date"] then
    Except.ok (dictSet f "type" (PyVal.str "'date'"))
  else if field.row.data_type ∈ ["time", "time without time zone"] then
    Except.ok (dictSet f "type" (PyVal.str "'time'"))
  else if field.row.data_type ∈ ["numeric", "currency"] then
    let f := dictSet f "precision" (optIntVal field.row.numeric_precision)
    let f := dictSet f "scale"
      (if optIntTruthy field.row.numeric_scale then
        optIntVal field.row.numeric_scale else PyVal.int 0)
    Except.ok (dictSet f "type" (PyVal.str
      ("'decimal(" ++ ((dictGet f "precision").getD PyVal.none).pyStr ++ "," ++
        ((dictGet f "scale").getD PyVal.none).pyStr ++ ")'")))
  else if field.row.data_type ∈ ["bytea"] then
    Except.ok (dictSet f "type" (PyVal.str "'blob'"))
  else if field.row.data_type ∈ ["point", "lseg", "polygon", "unknown", "USER-DEFINED"] then
    Except.ok (dictSet f "type" (PyVal.str ""))
  else
    Except.error ("Data Type not supported (" ++ field.schema ++ "." ++
      field.table ++ "." ++ field.name ++ "): " ++ field.row.data_type ++ " ")

/-- Lines 238-253 of the source: the default-value translation
`try` block.  `now()` becomes the request-time placeholder, the
boolean literals become Python booleans, any other text is fed to the
evaluator; a `ValueError`/`SyntaxError` is swallowed (`pass`), any
other exception is re-raised as `Default unsupported`. -/
def defaultStage (f : Dict) (cd : Option String)
    (ev : String → EvalResult) : Except String Dict :=
  match cd with
  | Option.none => Except.ok f
  | some s =>
    if s = "" then Except.ok f
    else if s = "now()" then Except.ok (dictSet f "default" (PyVal.str "request.now"))
    else if s = "true" then Except.ok (dictSet f "default" (PyVal.str "True"))
    else if s = "false" then Except.ok (dictSet f "default" (PyVal.str "False"))
    else
      match ev s with
      | EvalResult.ok v => Except.ok (dictSet f "default" (PyVal.str v))
      | EvalResult.literalError => Except.ok f
      | EvalResult.otherError =>
        Except.error ("Default unsupported '" ++ s ++ "'")

/-- Source `define_field(conn, field, pks)` run on a starting
dictionary `defs` (the deep copy of `field.definitions`): resolve the
reference, dispatch the type, translate the default, set `notnull`
when the catalog `is_nullable` string is falsy, and attach the
comment. -/
def define_field_core (defs : Dict) (env : FieldEnv) (field : FieldInfo)
    (pks : List String) (ev : String → EvalResult) : Except String Dict := do
  let ref ← references env.rows1 env.rows2q
  let f ← typeDispatch defs ref field pks
  let f ← defaultStage f field.row.column_default ev
  let f := if field.row.is_nullable = "" then
    dictSet f "notnull" (PyVal.str "True") else f
  let f := match get_comment env.commentRows with
    | some c => dictSet f "comment" (PyVal.str (pyReprStr c))
    | Option.none => f
  pure f

/-- Source `define_field`: `copy.deepcopy(field.definitions)` is a
pure value copy here, then the core runs on the copy. -/
def define_field (env : FieldEnv) (field : FieldInfo) (pks : List String)
    (ev : String → EvalResult) : Except String Dict :=
  define_field_core field.definitions env field pks ev

/-! ### Heap view of `define_field`

In the Python program every `FieldGenerateInfo` created from the
shared default argument `definitions={}` holds a reference to one
shared dictionary object, and `FieldInfo.assign_self` copies the
reference, so all matched columns alias one dictionary.  We model the
store of dictionaries explicitly: a heap is a list of dictionaries
addressed by position.  `define_field` first takes
`copy.deepcopy(field.definitions)`, allocating a fresh cell, and every
subsequent mutation targets only that fresh cell, so the run of the
core on the copied value followed by a single write-back is
observationally the in-place execution. -/

/-- A store of Python dictionary objects, addressed by position. -/
abbrev Heap := List Dict

/-- Read the dictionary object at an address. -/
def heapGet (h : Heap) (a : Nat) : Dict := h.getD a []

/-- `copy.deepcopy` of the dictionary at address `a`: allocate a
fresh cell holding a copy of its contents and return its address. -/
def deepcopy (h : Heap) (a : Nat) : Heap × Nat :=
  (h ++ [heapGet h a], h.length)

/-- `define_field` over the explicit heap: deep-copy the
`definitions` dictionary at address `a`, run the body on the copy, and
store the resulting dictionary in the fresh cell. -/
def define_field_heap (h : Heap) (a : Nat) (env : FieldEnv)
    (field : FieldInfo) (pks : List String) (ev : String → EvalResult) :
    Except String (Heap × Nat) :=
  let hc := deepcopy h a
  match define_field_core (heapGet hc.1 hc.2) env field pks ev with
  | Except.ok d => Except.ok (hc.1.set hc.2 d, hc.2)
  | Except.error e => Except.error e

/-! ### Emitter: `define_table` -/

/-- The fixed keyword order `KWARGS` of the source. -/
def KWARGS : List String :=
  ["type", "length", "default", "required", "ondelete",
   "notnull", "unique", "label", "comment"]

/-- One emitted field line:
`Field('name', k1=v1, ...)` over the keys of `KWARGS` that are
present in the dictionary with a truthy value, in `KWARGS` order. -/
def fieldLine (fname : String) (fdef : Dict) : String :=
  "    Field('" ++ fname ++ "', " ++
    String.intercalate ", "
      ((KWARGS.filter (fun k =>
          match dictGet fdef k with
          | some v => v.truthy
          | Option.none => false)).map
        (fun k => k ++ "=" ++ ((dictGet fdef k).getD PyVal.none).pyStr)) ++
    "),"

/-- The script's table object: the generation-info naming prefix and
the schema/name coordinates. -/
structure TableInfo where
  pfx : Option String
  schema : String
  name : String
  deriving DecidableEq

/-- Source `TableGenerateInfo.get_prefix`: the schema when no prefix
was configured. -/
def getPfx (t : TableInfo) : String := t.pfx.getD t.schema

/-- The field loop of `define_table`: resolve each field in order
against the current primary-key list, set `unique` for non-key unique
columns, and remove a field from the primary-key list when it resolved
to the identity type `'id'` (`pks.pop(pks.index(fname))` removes the
first occurrence).  Returns the emitted field lines and the residual
primary-key list. -/
def define_table_loop (ev : String → EvalResult) :
    List (FieldInfo × FieldEnv) → List String →
    Except String (List String × List String)
  | [], pks => Except.ok ([], pks)
  | (field, env) :: rest, pks => do
    let fdef ← define_field env field pks ev
    let fdef := if field.name ∉ pks && is_unique env.uniqueRows then
      dictSet fdef "unique" (PyVal.str "True") else fdef
    let pks2 := if dictGet fdef "type" = some (PyVal.str "'id'") &&
        field.name ∈ pks then pks.erase field.name else pks
    let res ← define_table_loop ev rest pks2
    Except.ok (fieldLine field.name fdef :: res.1, res.2)

/-- The composite-primary-key line of `define_table`, emitted only
when primary-key columns remain after the identity overrides. -/
def pkLines (pks : List String) : List String :=
  if pks.isEmpty then []
  else ["    primarykey=[" ++
    String.intercalate ", " (pks.map (fun pk => "'" ++ pk ++ "'")) ++ "],"]

/-- Source `define_table(conn, table)` as the list of printed lines.
`fieldData` carries `get_fields`' result together with the per-field
catalog answers, and `pks0` is `primarykeys(conn, table)`. -/
def define_table (ev : String → EvalResult) (tbl : TableInfo)
    (fieldData : List (FieldInfo × FieldEnv)) (pks0 : List String) :
    Except String (List String) := do
  let res ← define_table_loop ev fieldData pks0
  pure (["db.define_table('" ++ getPfx tbl ++ tbl.name ++ "',",
         "    rname='" ++ tbl.schema ++ "." ++ tbl.name ++ "',"] ++
        res.1 ++ pkLines res.2 ++ ["    migrate=migrate)", ""])

/-! ### Helper lemmas -/

/-- Writing a key and then reading: reading the written key gives the
written value, any other key is untouched. -/
theorem dictGet_dictSet (f : Dict) (k k2 : String) (v : PyVal) :
    dictGet (dictSet f k v) k2 = if k2 = k then some v else dictGet f k2 := by
  induction f with
  | nil =>
    by_cases h : k2 = k <;> simp [dictGet, dictSet, h, eq_comm]
  | cons p rest ih =>
    by_cases hp : p.1 = k
    · by_cases h : k2 = k <;>
        simp [dictGet, dictSet, hp, h, eq_comm]
    · by_cases hq : p.1 = k2
      · have h : ¬ k2 = k := by
          intro e
          exact hp (e ▸ hq)
        simp [dictGet, dictSet, hp, hq, h]
      · simpa [dictGet, dictSet, hp, hq] using ih

/-- C1.  Filter Engine resolution: `get_generateInfo` equals the
first-match scan of the rule list — the rules are inspected in list
order, a rule participates only when its pattern arity equals the
subject arity and its pattern matches, and the directive of the first
such rule is the result; when no rule qualifies the result is `none`,
the same value as the directive of an explicit exclude rule, so a
non-match is treated identically to an explicit exclude. -/
theorem get_generateInfo_first_match (filters : List Rule) (info : List String) :
    get_generateInfo filters info =
      Option.join ((filters.find? (fun r =>
        r.1.length == info.length && is_filter_match r.1 info)).map Prod.snd) := by
  induction filters with
  | nil => rfl
  | cons r rest ih =>
    obtain ⟨pats, d⟩ := r
    by_cases h1 : pats.length = info.length
    · by_cases h2 : is_filter_match pats info
      · cases d <;> simp [get_generateInfo, List.find?, h1, h2]
      · simp [get_generateInfo, List.find?, h1, h2, ih]
    · have hb : (pats.length == info.length) = false := by simpa using h1
      simp [get_generateInfo, List.find?, h1, hb, ih]

/-! ### The anchoring of the pattern matcher (C9)

`re.match` anchors at the start of the subject only.  On patterns
without regex metacharacters (every concrete name pattern of the
script), matching therefore succeeds precisely when the pattern is a
prefix — not necessarily the whole — of the subject. -/

/-- The metacharacters of the host regex language.  A pattern without
them is matched purely literally. -/
def pythonMetachars : List Char :=
  ['\\', '.', '^', '$', '*', '+', '?', '\x7b', '\x7d', '[', ']', '(', ')', '|']

/-- On a pattern of literal characters (no `.` and no `*`), the
matcher accepts exactly the strings having the pattern as a prefix. -/
theorem matchHere_parse_lit :
    ∀ (p : List Char), (∀ c ∈ p, c ≠ '.' ∧ c ≠ '*') →
      ∀ s, matchHere (parsePattern p) s = List.isPrefixOf p s
  | [], _, s => by simp [parsePattern, matchHere, List.isPrefixOf]
  | [c], h, s => by
    have hc : c ≠ '.' := (h c (by simp)).1
    cases s with
    | nil => simp [parsePattern, matchHere, List.isPrefixOf]
    | cons d s2 =>
      simp [parsePattern, matchHere, List.isPrefixOf, toAtom, hc, atomMatch]
  | c :: r :: rest, h, s => by
    have hc : c ≠ '.' := (h c (by simp)).1
    have hr : r ≠ '*' := (h r (by simp)).2
    have ih := matchHere_parse_lit (r :: rest)
      (fun x hx => h x (List.mem_cons_of_mem c hx))
    cases s with
    | nil => simp [parsePattern, matchHere, List.isPrefixOf, hr]
    | cons d s2 =>
      simp [parsePattern, matchHere, List.isPrefixOf, toAtom, hc, hr,
        atomMatch, ih s2]

/-- C9 (amended).  Pattern matching is anchored at the start of the
subject only (`re.match` semantics): a rule pattern element built from
ordinary characters (no regex metacharacters) matches a subject
element if and only if it is literally a prefix of it — a pattern
matching only a proper prefix still matches, while a pattern matching
only at a later position does not. -/
theorem re_match_literal_prefix (p s : String)
    (h : ∀ c ∈ p.toList, c ∉ pythonMetachars) :
    re_match p s = List.isPrefixOf p.toList s.toList := by
  apply matchHere_parse_lit
  intro c hc
  have hm := h c hc
  constructor
  · intro e
    exact hm (by rw [e]; simp [pythonMetachars])
  · intro e
    exact hm (by rw [e]; simp [pythonMetachars])

/-- Witness for C9's amended theorem: the pattern `film` against the
subject `films` — a match of a proper prefix — evaluates exactly as
the prefix test, namely to true. -/
theorem re_match_literal_prefix_witness :
    re_match "film" "films" = List.isPrefixOf "film".toList "films".toList :=
  re_match_literal_prefix "film" "films" (by decide)

/-- C9 (counterexample).  The claim says a pattern element matching
only a proper prefix of its subject element (pattern `film` against
table name `films`) does not make the rule match; but the rule
`(('public','film'), TableGenerateInfo('x'))` does match the subject
`('public','films')` and its directive is returned. -/
theorem filter_prefix_match_cex :
    get_generateInfo
        [(["public", "film"], some (GenerateInfo.tableInfo (some "x")))]
        ["public", "films"] =
      some (GenerateInfo.tableInfo (some "x")) := by decide

/-- Equality of embedded exception results is decidable, so concrete
runs can be checked by evaluation. -/
instance {ε α : Type} [DecidableEq ε] [DecidableEq α] : DecidableEq (Except ε α)
  | Except.ok x, Except.ok y => decidable_of_iff (x = y) (by simp)
  | Except.error x, Except.error y => decidable_of_iff (x = y) (by simp)
  | Except.ok _, Except.error _ => isFalse (fun h => Except.noConfusion h)
  | Except.error _, Except.ok _ => isFalse (fun h => Except.noConfusion h)

/-- A sample referencing-side row used by concrete witnesses. -/
def sampleRow1 : RefRow1 :=
  { table_name := "child", column_name := "parent_id",
    constraint_name := "fk1", constraint_schema := "public",
    update_rule := "NO ACTION", delete_rule := "CASCADE",
    ordinal_position := 1 }

/-- C2.  Foreign-key resolution cardinality: zero referencing-side
rows yield no reference and no error; two or more referencing-side
rows (the column participates in more than one referential
constraint) raise the fatal unsupported-referential-constraint error
naming the offending rows. -/
theorem references_cardinality (rows1 : List RefRow1)
    (q : String → String → List RefRow2) :
    (rows1 = [] → references rows1 q = Except.ok Option.none) ∧
    (2 ≤ rows1.length → references rows1 q =
      Except.error ("Unsupported referential constraint: " ++ strRows1 rows1)) := by
  constructor
  · intro h
    subst h
    rfl
  · intro h
    have h1 : ¬ rows1.length = 1 := by omega
    have h2 : rows1.isEmpty = false := by
      cases rows1 with
      | nil => simp at h
      | cons a l => simp
    simp [references, h1, h2]

/-- Witness for C2 at concrete inputs: an empty referencing side
resolves to no reference, and a two-row referencing side raises the
unsupported-referential-constraint error. -/
theorem references_cardinality_witness :
    references ([] : List RefRow1) (fun _ _ => []) = Except.ok Option.none ∧
    references [sampleRow1, sampleRow1] (fun _ _ => []) =
      Except.error ("Unsupported referential constraint: " ++
        strRows1 [sampleRow1, sampleRow1]) :=
  ⟨(references_cardinality [] (fun _ _ => [])).1 rfl,
   (references_cardinality [sampleRow1, sampleRow1] (fun _ _ => [])).2 (by decide)⟩

/-- C3.  With exactly one referencing-side row: a single
referenced-side row produces the unkeyed reference
`'reference schema.table'` (no column name); several referenced-side
rows produce the keyed reference naming the column of the row at index
`ordinal_position - 1` of the referenced-side rows. -/
theorem references_unkeyed_keyed (r1 : RefRow1)
    (q : String → String → List RefRow2) :
    (∀ row : RefRow2, q r1.constraint_name r1.constraint_schema = [row] →
      ∃ d : Dict, references [r1] q = Except.ok (some d) ∧
        dictGet d "type" = some (PyVal.str
          ("'reference " ++ row.table_schema ++ "." ++ row.table_name ++ "'"))) ∧
    (∀ row : RefRow2, 1 < (q r1.constraint_name r1.constraint_schema).length →
      pyGet (q r1.constraint_name r1.constraint_schema)
          (r1.ordinal_position - 1) = some row →
      ∃ d : Dict, references [r1] q = Except.ok (some d) ∧
        dictGet d "type" = some (PyVal.str
          ("'reference " ++ row.table_schema ++ "." ++ row.table_name ++ "." ++
            row.column_name ++ "'"))) := by
  constructor
  · intro row h
    by_cases hd : r1.delete_rule = "NO ACTION"
    · refine ⟨[("type", PyVal.str ("'reference " ++ row.table_schema ++ "." ++
        row.table_name ++ "'"))], ?_, ?_⟩
      · simp [references, h, hd]
      · simp [dictGet, List.find?]
    · refine ⟨[("type", PyVal.str ("'reference " ++ row.table_schema ++ "." ++
        row.table_name ++ "'")),
        ("ondelete", PyVal.str (pyReprStr r1.delete_rule))], ?_, ?_⟩
      · simp [references, h, hd]
      · simp [dictGet, List.find?]
  · intro row hlen hpy
    by_cases hd : r1.delete_rule = "NO ACTION"
    · refine ⟨[("type", PyVal.str ("'reference " ++ row.table_schema ++ "." ++
        row.table_name ++ "." ++ row.column_name ++ "'"))], ?_, ?_⟩
      · simp [references, hlen, hpy, hd]
      · simp [dictGet, List.find?]
    · refine ⟨[("type", PyVal.str ("'reference " ++ row.table_schema ++ "." ++
        row.table_name ++ "." ++ row.column_name ++ "'")),
        ("ondelete", PyVal.str (pyReprStr r1.delete_rule))], ?_, ?_⟩
      · simp [references, hlen, hpy, hd]
      · simp [dictGet, List.find?]

/-- Witness for C3 at concrete inputs: a one-row referenced side
gives the unkeyed type, a two-row referenced side at ordinal 1 gives
the keyed type naming the first referenced column. -/
theorem references_unkeyed_keyed_witness :
    (∃ d : Dict, references [sampleRow1]
        (fun _ _ => [⟨"public", "parent", "id"⟩]) = Except.ok (some d) ∧
      dictGet d "type" = some (PyVal.str "'reference public.parent'")) ∧
    (∃ d : Dict, references [sampleRow1]
        (fun _ _ => [⟨"public", "parent", "a"⟩, ⟨"public", "parent", "b"⟩]) =
          Except.ok (some d) ∧
      dictGet d "type" = some (PyVal.str "'reference public.parent.a'")) := by
  constructor
  · have h := (references_unkeyed_keyed sampleRow1
      (fun _ _ => [⟨"public", "parent", "id"⟩])).1 ⟨"public", "parent", "id"⟩ rfl
    simpa using h
  · have h := (references_unkeyed_keyed sampleRow1
      (fun _ _ => [⟨"public", "parent", "a"⟩, ⟨"public", "parent", "b"⟩])).2
      ⟨"public", "parent", "a"⟩ (by decide) (by decide)
    simpa using h

/-- C4 (counterexample).  The claim says a single referencing-side
match with an empty referenced side is a fatal error; but on such an
input `references` returns `None` — exactly the soft "no reference"
result — because `row` stays `None` and the `elif rows2:` guard is
falsy on an empty row list. -/
theorem references_refside_empty_cex :
    references [sampleRow1] (fun _ _ => []) = Except.ok Option.none := by
  decide

/-- C4 (amended).  When the referencing-side query matches exactly
one row and the referenced-side query for that constraint returns
zero rows, resolution returns no reference (a soft result identical
to the zero-match case), not an error. -/
theorem references_refside_empty_soft (r1 : RefRow1)
    (q : String → String → List RefRow2)
    (h : q r1.constraint_name r1.constraint_schema = []) :
    references [r1] q = Except.ok Option.none := by
  simp [references, h]

/-- Witness for C4's amended theorem at a concrete input. -/
theorem references_refside_empty_soft_witness :
    references [sampleRow1] (fun _ _ => ([] : List RefRow2)) =
      Except.ok Option.none :=
  references_refside_empty_soft sampleRow1 (fun _ _ => []) rfl

/-- Bind on an embedded exception value: success feeds the
continuation. -/
theorem except_bind_ok {ε α β : Type} (a : α) (k : α → Except ε β) :
    (Except.ok a : Except ε α) >>= k = k a := rfl

/-- Bind on an embedded exception value: an exception propagates. -/
theorem except_bind_error {ε α β : Type} (e : ε) (k : α → Except ε β) :
    (Except.error e : Except ε α) >>= k = Except.error e := rfl

/-- Pure of the exception monad is success. -/
theorem except_pure {ε α : Type} (a : α) : (pure a : Except ε α) = Except.ok a := rfl

/-- Map over a successful embedded exception value. -/
theorem except_map_ok {ε α β : Type} (g : α → β) (a : α) :
    (g <$> (Except.ok a : Except ε α)) = Except.ok (g a) := rfl

/-- Map over a raised embedded exception value. -/
theorem except_map_error {ε α β : Type} (g : α → β) (e : ε) :
    (g <$> (Except.error e : Except ε α)) = Except.error e := rfl

/-- An environment with no referential constraint, no unique
constraint and no comment, used by concrete witnesses. -/
def sampleEnv : FieldEnv :=
  { rows1 := [], rows2q := fun _ _ => [], uniqueRows := [], commentRows := [] }

/-- The evaluator outcome for every default expression the witnesses
use: not a simple literal (Python raises `SyntaxError`). -/
def evLiteralError : String → EvalResult := fun _ => EvalResult.literalError

/-- A `timestamp with time zone` column (no default, nullable). -/
def sampleFieldTz : FieldInfo :=
  { definitions := [], schema := "public", table := "t", name := "c",
    row := { table_schema := "public", table_name := "t", column_name := "c",
             data_type := "timestamp with time zone", is_nullable := "YES",
             character_maximum_length := Option.none,
             numeric_precision := Option.none,
             numeric_scale := Option.none, column_default := Option.none } }

/-- C6 (amended).  For a column that is not a foreign key and has no
default: the catalog types `timestamp` and
`timestamp without time zone` map to the type tag `'datetime'`; the
catalog type `timestamp with time zone` is NOT recognized and raises
the fatal unsupported-data-type error naming the column and type. -/
theorem timestamp_dispatch (env : FieldEnv) (field : FieldInfo)
    (pks : List String) (ev : String → EvalResult)
    (href : references env.rows1 env.rows2q = Except.ok Option.none)
    (hcd : field.row.column_default = Option.none) :
    ((field.row.data_type = "timestamp" ∨
      field.row.data_type = "timestamp without time zone") →
      ∃ f : Dict, define_field env field pks ev = Except.ok f ∧
        dictGet f "type" = some (PyVal.str "'datetime'")) ∧
    (field.row.data_type = "timestamp with time zone" →
      define_field env field pks ev = Except.error
        ("Data Type not supported (" ++ field.schema ++ "." ++ field.table ++
          "." ++ field.name ++ "): " ++ field.row.data_type ++ " ")) := by
  constructor
  · intro hdt
    have hcases : field.row.data_type = "timestamp" ∨
        field.row.data_type = "timestamp without time zone" := hdt
    rcases hcases with h | h <;>
    · have hsw1 : strStartsWith "timestamp" "character" = false := by decide
      have hsw2 : strStartsWith "timestamp without time zone" "character" = false := by
        decide
      simp only [define_field, define_field_core, href, except_bind_ok]
      simp only [typeDispatch, hcd, optStrTruthy, h]
      simp [hsw1, hsw2, defaultStage, except_bind_ok, except_map_ok, except_pure]
      rcases hgc : get_comment env.commentRows with _ | c <;>
        by_cases hn : field.row.is_nullable = "" <;>
          simp [hgc, hn, dictGet_dictSet]
  · intro h
    have hsw3 : strStartsWith "timestamp with time zone" "character" = false := by
      decide
    simp only [define_field, define_field_core, href, except_bind_ok]
    simp only [typeDispatch, hcd, optStrTruthy, h]
    simp [hsw3, except_bind_error]

/-- Witness for C6's amended theorem: a `timestamp without time zone`
column resolves to the `'datetime'` type tag. -/
theorem timestamp_dispatch_witness :
    ∃ f : Dict, define_field sampleEnv
        { sampleFieldTz with row :=
          { sampleFieldTz.row with data_type := "timestamp without time zone" } }
        [] evLiteralError = Except.ok f ∧
      dictGet f "type" = some (PyVal.str "'datetime'") :=
  (timestamp_dispatch sampleEnv _ [] evLiteralError (by decide) rfl).1 (Or.inr rfl)

/-- C6 (counterexample).  The claim says `timestamp with time zone`
maps to `'datetime'` without failure; but the dispatch tuple only
contains `timestamp` and `timestamp without time zone`, so such a
column raises the fatal unsupported-data-type error. -/
theorem timestamptz_unsupported_cex :
    define_field sampleEnv sampleFieldTz [] evLiteralError =
      Except.error
        "Data Type not supported (public.t.c): timestamp with time zone " := by
  decide

/-- C7.  Default-value translation trichotomy for a non-empty
default-expression text: `now()` becomes the request-time placeholder
`request.now`; the literals `true`/`false` become `True`/`False`; any
other text is evaluated — a value sets the default to its repr, a
`ValueError`/`SyntaxError` silently drops the default and resolution
continues, and any other evaluation failure raises the fatal
`Default unsupported` error naming the raw default text, which
propagates out of `define_field`. -/
theorem default_value_trichotomy (f : Dict) (ev : String → EvalResult)
    (cd : String) (hne : cd ≠ "") :
    (cd = "now()" → defaultStage f (some cd) ev =
      Except.ok (dictSet f "default" (PyVal.str "request.now"))) ∧
    (cd = "true" → defaultStage f (some cd) ev =
      Except.ok (dictSet f "default" (PyVal.str "True"))) ∧
    (cd = "false" → defaultStage f (some cd) ev =
      Except.ok (dictSet f "default" (PyVal.str "False"))) ∧
    (cd ≠ "now()" → cd ≠ "true" → cd ≠ "false" →
      (∀ v, ev cd = EvalResult.ok v → defaultStage f (some cd) ev =
        Except.ok (dictSet f "default" (PyVal.str v))) ∧
      (ev cd = EvalResult.literalError →
        defaultStage f (some cd) ev = Except.ok f) ∧
      (ev cd = EvalResult.otherError → defaultStage f (some cd) ev =
        Except.error ("Default unsupported '" ++ cd ++ "'"))) ∧
    (∀ (env : FieldEnv) (field : FieldInfo) (pks : List String),
      references env.rows1 env.rows2q = Except.ok Option.none →
      field.row.column_default = some cd →
      field.row.data_type = "integer" →
      ev cd = EvalResult.otherError →
      cd ≠ "now()" → cd ≠ "true" → cd ≠ "false" →
      define_field env field pks ev =
        Except.error ("Default unsupported '" ++ cd ++ "'")) := by
  refine ⟨?_, ?_, ?_, ?_, ?_⟩
  · intro h
    simp [defaultStage, hne, h]
  · intro h
    subst h
    simp [defaultStage]
  · intro h
    subst h
    simp [defaultStage]
  · intro h1 h2 h3
    refine ⟨?_, ?_, ?_⟩
    · intro v hv
      simp [defaultStage, hne, h1, h2, h3, hv]
    · intro hv
      simp [defaultStage, hne, h1, h2, h3, hv]
    · intro hv
      simp [defaultStage, hne, h1, h2, h3, hv]
  · intro env field pks href hcd hdt hev h1 h2 h3
    have hsw : strStartsWith "integer" "character" = false := by decide
    have hds : ∀ g : Dict, defaultStage g (some cd) ev =
        Except.error ("Default unsupported '" ++ cd ++ "'") := by
      intro g
      simp [defaultStage, hne, h1, h2, h3, hev]
    simp only [define_field, define_field_core, href, except_bind_ok]
    simp only [typeDispatch, hcd, optStrTruthy, hdt]
    simp only [hsw, hne, ne_eq, not_false_eq_true, decide_True, Bool.true_and]
    by_cases hnv : (strStartsWith cd "nextval" &&
        decide (field.row.column_name ∈ pks)) = true <;>
      simp [hnv, hds, except_bind_ok, except_bind_error, except_map_error]

/-- Witness for C7 at concrete inputs: the three outcomes of the
trichotomy — the `now()` placeholder, a literal value, and the fatal
unsupported-default error propagating out of nothing else than the
default stage. -/
theorem default_value_trichotomy_witness :
    defaultStage [] (some "now()") evLiteralError =
      Except.ok (dictSet [] "default" (PyVal.str "request.now")) ∧
    defaultStage [] (some "5") (fun _ => EvalResult.ok "5") =
      Except.ok (dictSet [] "default" (PyVal.str "5")) ∧
    defaultStage [] (some "frob()") (fun _ => EvalResult.otherError) =
      Except.error ("Default unsupported '" ++ "frob()" ++ "'") :=
  ⟨(default_value_trichotomy [] evLiteralError "now()" (by decide)).1 rfl,
   ((default_value_trichotomy [] (fun _ => EvalResult.ok "5") "5"
      (by decide)).2.2.2.1 (by decide) (by decide) (by decide)).1 "5" rfl,
   ((default_value_trichotomy [] (fun _ => EvalResult.otherError) "frob()"
      (by decide)).2.2.2.1 (by decide) (by decide) (by decide)).2.2 rfl⟩

/-- A non-nullable `numeric(10,2)` column as the catalog reports it:
`is_nullable` is the string `"NO"`. -/
def sampleFieldNumeric : FieldInfo :=
  { definitions := [], schema := "public", table := "t", name := "c",
    row := { table_schema := "public", table_name := "t", column_name := "c",
             data_type := "numeric", is_nullable := "NO",
             character_maximum_length := Option.none,
             numeric_precision := some 10, numeric_scale := some 2,
             column_default := Option.none } }

/-- C8 (failing input).  On a non-nullable `numeric(10,2)` column the
resolved field carries `type='decimal(10,2)'` as claimed, but NO
`notnull` entry: the code tests the Python truthiness of the raw
`is_nullable` value, and the catalog string `"NO"` is truthy, so
`notnull` is never set for any real catalog row — contradicting both
the claim and the script's own feature list ("Handles notnull"). -/
theorem numeric_notnull_bug :
    define_field sampleEnv sampleFieldNumeric [] evLiteralError =
      Except.ok [("precision", PyVal.int 10), ("scale", PyVal.int 2),
        ("type", PyVal.str "'decimal(10,2)'")] ∧
    (define_field sampleEnv sampleFieldNumeric [] evLiteralError).map
        (fun f => dictGet f "notnull") = Except.ok Option.none := by
  constructor
  · decide
  · decide

/-- A serial column: `nextval` sequence default, sole primary key. -/
def sampleFieldSerial : FieldInfo :=
  { definitions := [], schema := "public", table := "t", name := "a",
    row := { table_schema := "public", table_name := "t", column_name := "a",
             data_type := "integer", is_nullable := "NO",
             character_maximum_length := Option.none,
             numeric_precision := some 32, numeric_scale := some 0,
             column_default := some "nextval('t_a_seq'::regclass)" } }

/-- An environment in which the column is also a foreign key whose
referenced side is the single column `public.parent.id`. -/
def sampleEnvFk : FieldEnv :=
  { rows1 := [sampleRow1],
    rows2q := fun _ _ => [⟨"public", "parent", "id"⟩],
    uniqueRows := [], commentRows := [] }

/-- C5 (counterexample).  The claim says every sole-primary-key
column with a `nextval` default gets the type tag `'id'` and is
absent from the emitted `primarykey=[...]` declaration; but when the
same column is also a foreign key, the reference branch wins (it is
tested first), the type tag is the reference type, and the column IS
emitted in the `primarykey=['a']` declaration. -/
theorem identity_override_fk_cex :
    define_table evLiteralError
        { pfx := some "", schema := "public", name := "t" }
        [(sampleFieldSerial, sampleEnvFk)] ["a"] =
      Except.ok ["db.define_table('t',", "    rname='public.t',",
        "    Field('a', type='reference public.parent', ondelete='CASCADE'),",
        "    primarykey=['a'],", "    migrate=migrate)", ""] := by
  decide

/-- C5 (amended).  For every column with a `nextval` sequence default
that is the sole member of its table's primary key AND for which
foreign-key resolution yields no reference (the reference branch is
tested first and takes precedence), the resolved type tag is `'id'`,
the column is removed from the residual primary-key list, and the
emitted table declaration contains no `primarykey=[...]` line at
all. -/
theorem identity_override_no_ref (tbl : TableInfo) (env : FieldEnv)
    (field : FieldInfo) (ev : String → EvalResult) (cd : String)
    (href : references env.rows1 env.rows2q = Except.ok Option.none)
    (hcd : field.row.column_default = some cd)
    (hnv : strStartsWith cd "nextval" = true)
    (hname : field.row.column_name = field.name)
    (hev : ev cd = EvalResult.literalError) :
    ∃ fdef : Dict, define_field env field [field.name] ev = Except.ok fdef ∧
      dictGet fdef "type" = some (PyVal.str "'id'") ∧
      define_table ev tbl [(field, env)] [field.name] =
        Except.ok ["db.define_table('" ++ getPfx tbl ++ tbl.name ++ "',",
          "    rname='" ++ tbl.schema ++ "." ++ tbl.name ++ "',",
          fieldLine field.name fdef, "    migrate=migrate)", ""] := by
  have hne : cd ≠ "" := by
    intro e
    rw [e] at hnv
    exact absurd hnv (by decide)
  have h1 : cd ≠ "now()" := by
    intro e
    rw [e] at hnv
    exact absurd hnv (by decide)
  have h2 : cd ≠ "true" := by
    intro e
    rw [e] at hnv
    exact absurd hnv (by decide)
  have h3 : cd ≠ "false" := by
    intro e
    rw [e] at hnv
    exact absurd hnv (by decide)
  have hmem : field.row.column_name ∈ [field.name] := by
    rw [hname]
    exact List.mem_singleton_self field.name
  have hmain : ∃ fdef : Dict,
      define_field env field [field.name] ev = Except.ok fdef ∧
      dictGet fdef "type" = some (PyVal.str "'id'") := by
    simp only [define_field, define_field_core, href, except_bind_ok]
    simp only [typeDispatch, hcd, optStrTruthy]
    simp only [hne, ne_eq, not_false_eq_true, decide_True, hnv, hmem,
      Bool.true_and, Bool.and_true, decide_eq_true_eq]
    simp [defaultStage, hne, h1, h2, h3, hev, hnv, except_bind_ok,
      except_map_ok, except_pure]
    rcases hgc : get_comment env.commentRows with _ | c <;>
      by_cases hn : field.row.is_nullable = "" <;>
        simp [hgc, hn, hnv, dictGet_dictSet]
  obtain ⟨fdef, hdf, hty⟩ := hmain
  refine ⟨fdef, hdf, hty, ?_⟩
  simp [define_table, define_table_loop, hdf, hty, except_bind_ok, except_pure,
    pkLines]

/-- Witness for C5's amended theorem at a concrete input: the serial
sole-primary-key column without a foreign key resolves to `'id'` and
the table declaration carries no primary-key line. -/
theorem identity_override_no_ref_witness :
    ∃ fdef : Dict, define_field sampleEnv sampleFieldSerial ["a"]
        evLiteralError = Except.ok fdef ∧
      dictGet fdef "type" = some (PyVal.str "'id'") ∧
      define_table evLiteralError
          { pfx := some "", schema := "public", name := "t" }
          [(sampleFieldSerial, sampleEnv)] ["a"] =
        Except.ok ["db.define_table('" ++
            getPfx { pfx := some "", schema := "public", name := "t" } ++ "t',",
          "    rname='" ++ "public" ++ "." ++ "t',",
          fieldLine "a" fdef, "    migrate=migrate)", ""] :=
  identity_override_no_ref { pfx := some "", schema := "public", name := "t" }
    sampleEnv sampleFieldSerial evLiteralError "nextval('t_a_seq'::regclass)"
    (by decide) rfl (by decide) rfl rfl

/-- C10.  Frame property of field resolution over the explicit store
of dictionary objects: `define_field` deep-copies the generation-info
`definitions` dictionary into a fresh cell and mutates only that
cell, so every pre-existing dictionary — in particular the single
directive dictionary shared, through the mutable default argument of
`FieldGenerateInfo`, by every column a rule matches — is unchanged,
and no overrides leak from one resolved field into another. -/
theorem define_field_frame (h : Heap) (a : Nat) (env : FieldEnv)
    (field : FieldInfo) (pks : List String) (ev : String → EvalResult)
    (hp : Heap) (fa : Nat) (ha : a < h.length)
    (hok : define_field_heap h a env field pks ev = Except.ok (hp, fa)) :
    (∀ b, b < h.length → heapGet hp b = heapGet h b) ∧ fa ≠ a := by
  have hok2 : (match define_field_core (heapGet (h ++ [heapGet h a]) h.length)
        env field pks ev with
      | Except.ok d => Except.ok ((h ++ [heapGet h a]).set h.length d, h.length)
      | Except.error e => (Except.error e : Except String (Heap × Nat))) =
      Except.ok (hp, fa) := hok
  cases hcore : define_field_core (heapGet (h ++ [heapGet h a]) h.length)
      env field pks ev with
  | error e =>
    rw [hcore] at hok2
    cases hok2
  | ok d =>
    rw [hcore] at hok2
    simp only [Except.ok.injEq, Prod.mk.injEq] at hok2
    obtain ⟨rfl, rfl⟩ := hok2
    constructor
    · intro b hb
      have hbne : h.length ≠ b := by omega
      simp only [heapGet, List.getD_eq_getElem?_getD]
      rw [List.getElem?_set_ne hbne, List.getElem?_append, if_pos hb]
    · omega

/-- A plain `text` column (no default, nullable, no constraints). -/
def sampleFieldText : FieldInfo :=
  { definitions := [], schema := "public", table := "t", name := "c",
    row := { table_schema := "public", table_name := "t", column_name := "c",
             data_type := "text", is_nullable := "YES",
             character_maximum_length := Option.none,
             numeric_precision := Option.none,
             numeric_scale := Option.none, column_default := Option.none } }

/-- Witness for C10 at a concrete input: resolving a `text` column
whose `definitions` dictionary lives at address 0 of a one-cell heap
writes only the freshly allocated cell 1 and leaves cell 0 as it
was. -/
theorem define_field_frame_witness :
    heapGet [[], [("type", PyVal.str "'text'")]] 0 = heapGet [([] : Dict)] 0 ∧
    (1 : Nat) ≠ 0 :=
  ⟨(define_field_frame [([] : Dict)] 0 sampleEnv sampleFieldText []
      evLiteralError [[], [("type", PyVal.str "'text'")]] 1
      (by decide) (by decide)).1 0 (by decide),
   (define_field_frame [([] : Dict)] 0 sampleEnv sampleFieldText []
      evLiteralError [[], [("type", PyVal.str "'text'")]] 1
      (by decide) (by decide)).2⟩

end ExtractPgsqlModels
